import Mathlib

/-!
Verification of the HellioHR email agent against its specification.

The Python sources are shallowly embedded:
* strings become `List Char` with helpers mirroring the Python string
  operations used by the code (`lower`, `strip`, slicing, `in`, `index`,
  `startswith`);
* effectful collaborator calls (Gmail, backend REST API, Jinja renderer)
  become functions supplied in an environment record; a call that may raise
  in Python returns `Except Unit α`;
* each pipeline function additionally returns the list of collaborator
  calls it issued (`Event`s) and the message's label set after the run, so
  that invariants about side effects can be stated.
-/

namespace HellioHR

/-- Python strings are modelled as lists of characters. -/
abbrev Str := List Char

/-- Coerce a Lean string literal to the `List Char` model. -/
def lit (s : String) : Str := s.data

/-- Python `str.lower()`. -/
def pyLower (s : Str) : Str := s.map Char.toLower

/-- Python `str.strip()` (strip ASCII whitespace from both ends). -/
def pyStrip (s : Str) : Str :=
  ((s.dropWhile Char.isWhitespace).reverse.dropWhile Char.isWhitespace).reverse

/-- Python `c in s` for a single character `c`. -/
def pyContainsChar (s : Str) (c : Char) : Bool := s.any (fun a => a = c)

/-- Python `s.index(c)`: index of the first occurrence of `c` in `s`
(the callers below only use it when `c in s` holds). -/
def pyIndexChar (s : Str) (c : Char) : Nat :=
  match s with
  | [] => 0
  | a :: t => if a = c then 0 else pyIndexChar t c + 1

/-- Python `sub in s` (substring containment). -/
def containsSub (hay needle : Str) : Bool :=
  match hay with
  | [] => needle.isEmpty
  | c :: t => needle.isPrefixOf (c :: t) || containsSub t needle

/-- Python `s[a:b]` for `0 ≤ a, b` (an empty slice when `a ≥ b`). -/
def pySlice (s : Str) (a b : Nat) : Str := (s.drop a).take (b - a)

/-- Python `s.lower().startswith(p.lower())`. -/
def startsWithCI (s p : Str) : Bool := (pyLower p).isPrefixOf (pyLower s)

/-- `src/agent/tools/gmail_tools.py` — attachment metadata of a message. -/
structure Attachment where
  id : Str
  filename : Str
  mimeType : Str := []
  size : Nat := 0
deriving Repr, DecidableEq

/-- `src/agent/tools/gmail_tools.py` — email object returned by
`fetch_emails` (a Python dict; absent keys default to the empty string or
empty list exactly as the `email.get(...)` calls do). `from_` models the
`from` key. -/
structure Email where
  id : Str := []
  threadId : Str := []
  from_ : Str := []
  to_ : Str := []
  subject : Str := []
  body : Str := []
  date : Str := []
  labels : List Str := []
  attachments : List Attachment := []
deriving Repr, DecidableEq

/-- `gmail_tools.parse_email_address`: extract the address from a
`Name <email@domain>` field, else strip/lower the whole field. -/
def parse_email_address (email_field : Str) : Str :=
  if pyContainsChar email_field '<' && pyContainsChar email_field '>' then
    let start := pyIndexChar email_field '<' + 1
    let stop := pyIndexChar email_field '>'
    pyLower (pyStrip (pySlice email_field start stop))
  else
    pyLower (pyStrip email_field)

/-- `gmail_tools.extract_name_from_email`: the display name before `<`,
falling back to the parsed address when absent or blank. -/
def extract_name_from_email (email_field : Str) : Str :=
  if pyContainsChar email_field '<' then
    let name := pyStrip (email_field.take (pyIndexChar email_field '<'))
    if name ≠ [] then name else parse_email_address email_field
  else
    parse_email_address email_field

/-- The `EmailType` literal of `src/agent/tools/classification.py`. -/
inductive EmailType where
  | CANDIDATE_APPLICATION
  | POSITION_ANNOUNCEMENT
  | OTHER
deriving Repr, DecidableEq

/-- `classification.classify_email_deterministic`: routing by recipient
address patterns. -/
def classify_email_deterministic (email : Email) : EmailType × Str :=
  let to_address := parse_email_address email.to_
  if containsSub to_address (lit "+candidates@")
      || to_address = lit "candidates@develeap.com" then
    (EmailType.CANDIDATE_APPLICATION, lit "deterministic: +candidates address")
  else if containsSub to_address (lit "+positions@")
      || to_address = lit "positions@develeap.com" then
    (EmailType.POSITION_ANNOUNCEMENT, lit "deterministic: +positions address")
  else
    (EmailType.OTHER, lit "deterministic: no routing pattern matched")

/-- An LLM collaborator: a single-shot call that may fail in transport
(`Except.error`) or return arbitrary text. -/
abbrev LlmFn := Email → Except Str Str

/-- `classification.classify_email_with_llm`: the source is a placeholder —
the prompt is built but the `llm_classify_fn` call is commented out and
`email_type` is hard-coded to `"OTHER"` (lines 79–87), so the collaborator
is never invoked. -/
def classify_email_with_llm (_email : Email) (_llm_classify_fn : LlmFn) :
    EmailType × Str :=
  (EmailType.OTHER, lit "llm: classified as OTHER")

/-- Metadata extracted by `classification.classify_email` (step 3). -/
structure ExtractedInfo where
  sender : Str
  subject : Str
  to_ : Str
  received_at : Str
  attachment_count : Nat
  has_body : Bool
deriving Repr, DecidableEq

/-- `classification.classify_email`: deterministic pass first, LLM fallback
only when the deterministic result is OTHER and a function is configured. -/
def classify_email (email : Email) (llm_classify_fn : Option LlmFn := none) :
    EmailType × Str × ExtractedInfo :=
  let det := classify_email_deterministic email
  let res :=
    match det.1, llm_classify_fn with
    | EmailType.OTHER, some f => classify_email_with_llm email f
    | _, _ => det
  (res.1, res.2,
    { sender := email.from_
      subject := email.subject
      to_ := email.to_
      received_at := email.date
      attachment_count := email.attachments.length
      has_body := pyStrip email.body ≠ [] })

/-- Result record of `agent_strands.classify_email_type`. -/
structure Classification where
  type : EmailType
  method : Str
  confidence : Str
  extracted_info : ExtractedInfo
deriving Repr, DecidableEq

/-- `agent_strands.classify_email_type`: wraps `classify_email` (invoked
with no LLM function) and derives a confidence from the method string; the
`except` branch returning `(OTHER, error, low)` is unreachable here because
the embedded `classify_email` is total. -/
def classify_email_type (email_data : Email) : Classification :=
  let r := classify_email email_data
  let confidence := if r.2.1 = lit "deterministic" then lit "high" else lit "medium"
  { type := r.1, method := r.2.1, confidence := confidence,
    extracted_info := r.2.2 }

/-- Candidate object returned by `BackendAPI.create_or_get_candidate`. -/
structure Candidate where
  id : Str
deriving Repr, DecidableEq

/-- Result of `BackendAPI.upload_document` (`upload_result['document']['id']`). -/
structure UploadResult where
  documentId : Str
deriving Repr, DecidableEq

/-- Notification object returned by `BackendAPI.create_notification`;
`id = none` models a response without an `id` key. -/
structure Notification where
  id : Option Str
deriving Repr, DecidableEq

/-- Python truthiness of `notification.get('id')` in `agent.py` line 140:
an absent key or an empty string is falsy. -/
def notifTruthy (n : Notification) : Bool :=
  match n.id with
  | some s => !s.isEmpty
  | none => false

/-- The metadata dict built in `agent.process_single_email` (lines 121-130). -/
structure NotificationMeta where
  emailId : Str
  type : EmailType
  sender : Str
  subject : Str
  attachmentCount : Nat
  classificationMethod : Str
  candidateId : Option Str
  documentId : Option Str
deriving Repr, DecidableEq

/-- Collaborator behaviour visible to `agent.process_single_email`:
each field gives the observed result of one outbound call. A call that
raises (`BackendAPIError` or any exception) is an `Except.error`;
`download_attachment` returns empty bytes on any Gmail API error and
`add_label` returns `false` on failure, as in `gmail_tools.py`. -/
structure AgentEnv where
  download_attachment : Str → Str → Str → List Nat
  create_or_get_candidate : Str → Str → Except Unit Candidate
  upload_document : Str → List Nat → Str → Except Unit UploadResult
  create_notification : Str → Str → Str → NotificationMeta → Except Unit Notification
  add_label : Str → Str → Bool

/-- Default of the `GMAIL_PROCESSED_LABEL` configuration option. -/
def GMAIL_PROCESSED_LABEL : Str := lit "hellio/processed"

/-- Decimal rendering of a count, for the f-string interpolations. -/
def natToStr (n : Nat) : Str := Nat.toDigits 10 n

/-- The `{'title', 'message'}` dict built by
`classification.format_notification_message`. -/
structure NotificationData where
  title : Str
  message : Str
deriving Repr, DecidableEq

/-- `classification.format_notification_message` (lines 127-185). -/
def format_notification_message (email : Email) (email_type : EmailType)
    (classification_method : Str) : NotificationData :=
  let sender := email.from_
  let subject := email.subject
  let attachment_count := email.attachments.length
  match email_type with
  | EmailType.CANDIDATE_APPLICATION =>
    let name :=
      if pyContainsChar sender '<' then pyStrip (sender.take (pyIndexChar sender '<'))
      else sender
    { title := lit "New Candidate Application: " ++ name
      message := lit "From: " ++ sender ++ lit "\nSubject: " ++ subject ++
        lit "\n\nClassification: Candidate Application (via " ++ classification_method ++
        lit ")\nAttachments: " ++ natToStr attachment_count ++
        lit " file(s)\n\nAction Required: Review email in Gmail and decide next steps." }
  | EmailType.POSITION_ANNOUNCEMENT =>
    let position_title :=
      if subject.length > 50 then subject.take 50 ++ lit "..." else subject
    { title := lit "New Position Announcement: " ++ position_title
      message := lit "From: " ++ sender ++ lit "\nSubject: " ++ subject ++
        lit "\n\nClassification: Position Announcement (via " ++ classification_method ++
        lit ")\nAttachments: " ++ natToStr attachment_count ++
        lit " file(s)\n\nAction Required: Review email in Gmail and create position in system." }
  | EmailType.OTHER =>
    { title := lit "Unclassified Email: " ++ subject.take 30
      message := lit "From: " ++ sender ++ lit "\nSubject: " ++ subject ++
        lit "\n\nClassification: Other (via " ++ classification_method ++
        lit ")\n\nAction Required: Review email manually to determine appropriate action." }

/-- One outbound side-effecting collaborator call issued by the pipeline. -/
inductive Event where
  | download (attachmentId : Str)
  | createCandidate (email name : Str)
  | uploadDocument (candidateId filename : Str)
  | createNotification
  | addLabel (label : Str)
deriving Repr, DecidableEq

/-- Outcome of processing one message: the reported success flag, the
ordered collaborator calls issued, and the message's label set afterwards
(labels can only ever be added — there is no label-removal call anywhere
in the source). -/
structure ProcessResult where
  success : Bool
  events : List Event
  labels : List Str
deriving Repr, DecidableEq

/-- The metadata dict of `agent.process_single_email` lines 121-130. -/
def agentNotificationMeta (email : Email) (email_type : EmailType)
    (classification_method : Str) (extracted_info : ExtractedInfo)
    (candidate_id document_id : Option Str) : NotificationMeta :=
  { emailId := email.id
    type := email_type
    sender := extracted_info.sender
    subject := extracted_info.subject
    attachmentCount := extracted_info.attachment_count
    classificationMethod := classification_method
    candidateId := candidate_id
    documentId := document_id }

/-- The notification-creation call of `agent.process_single_email`
(lines 113-137): format title/message, then POST the notification. -/
def agentNotifyCall (env : AgentEnv) (email : Email) (email_type : EmailType)
    (classification_method : Str) (extracted_info : ExtractedInfo)
    (candidate_id document_id : Option Str) : Except Unit Notification :=
  let nd := format_notification_message email email_type classification_method
  env.create_notification nd.title nd.message (lit "email_processed")
    (agentNotificationMeta email email_type classification_method extracted_info
      candidate_id document_id)

/-- Steps 3-5 of `agent.process_single_email`: format the notification,
create it, and apply the processed label only when the created
notification has a truthy id (lines 113-147). -/
def agentFinishNotify (env : AgentEnv) (email : Email) (email_type : EmailType)
    (classification_method : Str) (extracted_info : ExtractedInfo)
    (candidate_id document_id : Option Str) (evs : List Event) : ProcessResult :=
  match agentNotifyCall env email email_type classification_method extracted_info
      candidate_id document_id with
  | Except.error _ => ⟨false, evs ++ [Event.createNotification], email.labels⟩
  | Except.ok notification =>
    if notifTruthy notification then
      let labeled := env.add_label email.id GMAIL_PROCESSED_LABEL
      ⟨true, evs ++ [Event.createNotification, Event.addLabel GMAIL_PROCESSED_LABEL],
        if labeled then email.labels ++ [GMAIL_PROCESSED_LABEL] else email.labels⟩
    else
      ⟨false, evs ++ [Event.createNotification], email.labels⟩

/-- `agent.process_single_email` (lines 40-156): classify, ingest the first
attachment of a candidate application, notify, then label; any failure or
exception returns `False` with the email unlabeled. -/
def process_single_email (env : AgentEnv) (email : Email) : ProcessResult :=
  let c := classify_email email
  let email_type := c.1
  let classification_method := c.2.1
  let extracted_info := c.2.2
  if email_type = EmailType.CANDIDATE_APPLICATION then
    match email.attachments with
    | [] =>
      agentFinishNotify env email email_type classification_method extracted_info none none []
    | attachment :: _ =>
      let attachment_data :=
        env.download_attachment email.id attachment.id attachment.filename
      if attachment_data ≠ [] then
        let sender_email := parse_email_address email.from_
        let sender_name := extract_name_from_email email.from_
        match env.create_or_get_candidate sender_email sender_name with
        | Except.error _ =>
          ⟨false, [Event.download attachment.id,
                   Event.createCandidate sender_email sender_name], email.labels⟩
        | Except.ok candidate =>
          match env.upload_document candidate.id attachment_data attachment.filename with
          | Except.error _ =>
            ⟨false, [Event.download attachment.id,
                     Event.createCandidate sender_email sender_name,
                     Event.uploadDocument candidate.id attachment.filename], email.labels⟩
          | Except.ok upload_result =>
            agentFinishNotify env email email_type classification_method extracted_info
              (some candidate.id) (some upload_result.documentId)
              [Event.download attachment.id,
               Event.createCandidate sender_email sender_name,
               Event.uploadDocument candidate.id attachment.filename]
      else
        ⟨false, [Event.download attachment.id], email.labels⟩
  else
    agentFinishNotify env email email_type classification_method extracted_info none none []

/-- Spec-side outcome of the ConditionalIngest step (§4.3): `none` when a
required ingestion fails, otherwise the candidate/document ids it
produced (both `none` when the step is skipped). -/
def ingestOutcome (env : AgentEnv) (email : Email) : Option (Option Str × Option Str) :=
  if (classify_email email).1 = EmailType.CANDIDATE_APPLICATION then
    match email.attachments with
    | [] => some (none, none)
    | attachment :: _ =>
      let data := env.download_attachment email.id attachment.id attachment.filename
      if data = [] then none
      else
        match env.create_or_get_candidate (parse_email_address email.from_)
            (extract_name_from_email email.from_) with
        | Except.error _ => none
        | Except.ok candidate =>
          match env.upload_document candidate.id data attachment.filename with
          | Except.error _ => none
          | Except.ok up => some (some candidate.id, some up.documentId)
  else some (none, none)

/-- Spec-side predicate "all required steps for this message succeeded in
this run" (§3 invariant 1): classification (cannot fail), a required
ingestion, notification creation with a truthy id, and the label
application itself. -/
def allRequiredStepsOk (env : AgentEnv) (email : Email) : Bool :=
  match ingestOutcome env email with
  | none => false
  | some ids =>
    let c := classify_email email
    match agentNotifyCall env email c.1 c.2.1 c.2.2 ids.1 ids.2 with
    | Except.error _ => false
    | Except.ok n => notifTruthy n && env.add_label email.id GMAIL_PROCESSED_LABEL

/-- Position record returned by the backend. -/
structure PositionRec where
  id : Str
  title : Str
deriving Repr, DecidableEq

/-- Modelled from the spec: `BackendAPI.create_position` is invoked by
`agent_strands.process_position_announcement` (line 254) but is not
defined in `src/agent/tools/backend_api.py`; the implementation lives in
the backend service outside `src/`. Per §6 the collaborator contract is
`createPosition(title, department, description) → {id}` (the caller also
reads back `position['title']`). A transport failure is `Except.error`. -/
abbrev CreatePositionFn := Str → Str → Str → Except Unit PositionRec

/-- The `{'subject','body'}` dict produced by `templates.render_template`. -/
structure RenderedTemplate where
  subject : Str
  body : Str
deriving Repr, DecidableEq

/-- Metadata dict of the notification built in `agent_strands.run_agent_once`
(lines 628-635). -/
structure StrandsMeta where
  emailId : Str
  type : EmailType
  method : Str
  candidateId : Option Str
  positionId : Option Str
  draftId : Option Str
deriving Repr, DecidableEq

/-- Collaborator behaviour visible to the Strands tools of
`agent_strands.py` (same conventions as `AgentEnv`). `render_template`
returns `none` when the template is missing or a variable is absent. -/
structure StrandsEnv where
  create_or_get_candidate : Str → Str → Except Unit Candidate
  download_attachment : Str → Str → Str → List Nat
  upload_document : Str → List Nat → Str → Except Unit UploadResult
  create_position : CreatePositionFn
  render_template : Str → List (Str × Str) → Option RenderedTemplate
  create_notification : Str → Str → Str → StrandsMeta → Except Unit Notification
  add_label : Str → Str → Bool

/-- Result dict of the `process_candidate_application` Strands tool. -/
structure CandAppResult where
  success : Bool
  candidate_id : Option Str
  document_id : Option Str
  events : List Event
deriving Repr, DecidableEq

/-- Python truthiness of an optional string argument. -/
def pyTruthyOpt : Option Str → Bool
  | some s => !s.isEmpty
  | none => false

/-- `agent_strands.process_candidate_application` (lines 145-215): create
or fetch the candidate first, then download and upload the CV when an
attachment id/filename was passed. A failed download leaves
`attachment_data` empty and the tool still reports success (no `else`
branch on line 185); a backend error reports failure. -/
def strands_process_candidate_application (env : StrandsEnv)
    (email_id email_from : Str)
    (attachment_id attachment_filename : Option Str) : CandAppResult :=
  let sender_email := parse_email_address email_from
  let sender_name := extract_name_from_email email_from
  match env.create_or_get_candidate sender_email sender_name with
  | Except.error _ =>
    ⟨false, none, none, [Event.createCandidate sender_email sender_name]⟩
  | Except.ok candidate =>
    if pyTruthyOpt attachment_id && pyTruthyOpt attachment_filename then
      let aid := attachment_id.getD []
      let fname := attachment_filename.getD []
      let attachment_data := env.download_attachment email_id aid fname
      let evs := [Event.createCandidate sender_email sender_name, Event.download aid]
      if attachment_data ≠ [] then
        match env.upload_document candidate.id attachment_data fname with
        | Except.error _ =>
          ⟨false, none, none, evs ++ [Event.uploadDocument candidate.id fname]⟩
        | Except.ok up =>
          ⟨true, some candidate.id, some up.documentId,
           evs ++ [Event.uploadDocument candidate.id fname]⟩
      else
        ⟨true, some candidate.id, none, evs⟩
    else
      ⟨true, some candidate.id, none, [Event.createCandidate sender_email sender_name]⟩

/-- Result dict of the `process_position_announcement` Strands tool. -/
structure PositionResult where
  success : Bool
  position_id : Option Str
  title : Option Str
deriving Repr, DecidableEq

/-- The prefix phrases stripped from a position announcement subject
(`agent_strands.py` line 241). -/
def POSITION_PREFIXES : List Str :=
  [lit "New Position:", lit "Job Opening:", lit "Position:", lit "Role:", lit "Hiring:"]

/-- The prefix-stripping loop of `process_position_announcement`
(lines 240-244): strip the first case-insensitively matching prefix, then
`strip()` the remainder; `break` after the first match. -/
def stripPositionPrefix (subject : Str) : Str :=
  match POSITION_PREFIXES.find? (fun p => startsWithCI subject p) with
  | some p => pyStrip (subject.drop p.length)
  | none => subject

/-- `agent_strands.process_position_announcement` (lines 219-278). -/
def process_position_announcement (env : StrandsEnv)
    (email_subject email_body _email_from : Str) : PositionResult :=
  let title := (stripPositionPrefix email_subject).take 200
  let description := if pyStrip email_body ≠ [] then pyStrip email_body else email_subject
  let department := lit "Engineering"
  match env.create_position title department description with
  | Except.error _ => ⟨false, none, none⟩
  | Except.ok position => ⟨true, some position.id, some position.title⟩

/-- The dict returned by the `gmail_tools.create_draft` placeholder
(lines 211-237): fixed `draft_id`/`status`, and no `success` key. -/
structure DraftDict where
  draft_id : Str
  status : Str
  success : Option Bool
deriving Repr, DecidableEq

/-- `gmail_tools.create_draft` (placeholder implementation). -/
def gmail_create_draft (_email_id _to _subject _body : Str) : DraftDict :=
  { draft_id := lit "draft-placeholder", status := lit "created", success := none }

/-- Result of the `create_draft_reply` Strands tool. -/
structure DraftReplyResult where
  success : Bool
  draft_id : Option Str
deriving Repr, DecidableEq

/-- `agent_strands.create_draft_reply` (lines 342-398): render the
template, create a Gmail draft, and report success only when the draft
dict has a truthy `success` key (which the placeholder never provides). -/
def strands_create_draft_reply (env : StrandsEnv)
    (email_id recipient_email template_name : Str)
    (template_vars : List (Str × Str)) : DraftReplyResult :=
  match env.render_template template_name template_vars with
  | none => ⟨false, none⟩
  | some rendered =>
    let draft_result :=
      gmail_create_draft email_id recipient_email rendered.subject rendered.body
    match draft_result.success with
    | some true => ⟨true, some draft_result.draft_id⟩
    | _ => ⟨false, none⟩

/-- `"New " + email_type.replace('_', ' ').title()` of line 626. -/
def emailTypeTitle : EmailType → Str
  | EmailType.CANDIDATE_APPLICATION => lit "Candidate Application"
  | EmailType.POSITION_ANNOUNCEMENT => lit "Position Announcement"
  | EmailType.OTHER => lit "Other"

/-- The notification-creation call of the `run_agent_once` loop body
(lines 612-636): build the message and metadata, then POST. -/
def strandsNotifyCall (env : StrandsEnv) (email : Email)
    (email_type : EmailType) (method : Str)
    (candidate_id : Option Str) (position_result : PositionResult)
    (draft_id : Option Str) : Except Unit Notification :=
  let base := lit "From: " ++ email.from_ ++ lit "\nSubject: " ++ email.subject
  let base := match candidate_id with
    | some cid => base ++ lit "\n\nCandidate ID: " ++ cid
    | none => base
  let base :=
    if email_type = EmailType.POSITION_ANNOUNCEMENT && position_result.success then
      base ++ lit "\n\nPosition ID: " ++ (position_result.position_id.getD []) ++
        lit "\nTitle: " ++ (position_result.title.getD [])
    else base
  let notif_message := match draft_id with
    | some _ => base ++ lit "\nDraft reply created - check Gmail drafts"
    | none => base
  let metadata : StrandsMeta :=
    { emailId := email.id
      type := email_type
      method := method
      candidateId := candidate_id
      positionId :=
        if email_type = EmailType.POSITION_ANNOUNCEMENT && position_result.success then
          position_result.position_id
        else none
      draftId := draft_id }
  env.create_notification (lit "New " ++ emailTypeTitle email_type)
    notif_message (lit "email_processed") metadata

/-- The notification step of the `run_agent_once` loop body
(lines 612-651): create the notification (the tool reads
`notification['id']`, so a response without an `id` key is a failure),
and — only when it succeeded — mark the email processed. -/
def strandsFinishNotify (env : StrandsEnv) (email : Email)
    (email_type : EmailType) (method : Str)
    (candidate_id : Option Str) (position_result : PositionResult)
    (draft_id : Option Str) (evs : List Event) : ProcessResult :=
  match strandsNotifyCall env email email_type method candidate_id position_result
      draft_id with
  | Except.error _ => ⟨false, evs ++ [Event.createNotification], email.labels⟩
  | Except.ok notification =>
    match notification.id with
    | none =>
      -- `notif_result['notification_id'] = notification['id']` raises
      -- KeyError inside the tool, reported as success == False
      ⟨false, evs ++ [Event.createNotification], email.labels⟩
    | some _ =>
      let labeled := env.add_label email.id GMAIL_PROCESSED_LABEL
      ⟨true, evs ++ [Event.createNotification, Event.addLabel GMAIL_PROCESSED_LABEL],
        if labeled then email.labels ++ [GMAIL_PROCESSED_LABEL] else email.labels⟩

/-- One iteration of the per-email loop body of
`agent_strands.run_agent_once` (lines 504-658). -/
def strands_process_email (env : StrandsEnv) (email : Email) : ProcessResult :=
  let classification := classify_email_type email
  let email_type := classification.type
  let method := classification.method
  if email_type = EmailType.CANDIDATE_APPLICATION then
    let afterIngest : Option (Option Str × List Event) :=
      match email.attachments with
      | [] => some (none, [])
      | attachment :: _ =>
        let result := strands_process_candidate_application env email.id email.from_
          (some attachment.id) (some attachment.filename)
        if result.success then some (result.candidate_id, result.events) else none
    match afterIngest with
    | none =>
      -- `continue`: not marked as processed
      ⟨false,
        (match email.attachments with
         | [] => []
         | attachment :: _ =>
           (strands_process_candidate_application env email.id email.from_
             (some attachment.id) (some attachment.filename)).events),
        email.labels⟩
    | some (candidate_id, evs) =>
      let draft_result := strands_create_draft_reply env email.id
        (parse_email_address email.from_) (lit "candidate_welcome_no_position")
        [(lit "candidate_name", extract_name_from_email email.from_)]
      let draft_id := if draft_result.success then draft_result.draft_id else none
      strandsFinishNotify env email email_type method candidate_id
        ⟨false, none, none⟩ draft_id evs
  else if email_type = EmailType.POSITION_ANNOUNCEMENT then
    let position_result := process_position_announcement env email.subject email.body email.from_
    if position_result.success then
      let draft_result := strands_create_draft_reply env email.id
        (parse_email_address email.from_) (lit "position_acknowledgment")
        [(lit "position_title", position_result.title.getD []),
         (lit "department", lit "Engineering"),
         (lit "candidate_match_info", [])]
      let draft_id := if draft_result.success then draft_result.draft_id else none
      strandsFinishNotify env email email_type method none position_result draft_id []
    else
      ⟨false, [], email.labels⟩
  else
    strandsFinishNotify env email email_type method none ⟨false, none, none⟩ none []

/-- `MAX_EMAILS_PER_RUN` default. -/
def MAX_EMAILS_PER_RUN : Nat := 5

/-- Environment of one `run_agent_once` call: health-check answer, fetch
outcome (`Except.error` for a Gmail failure, caught inside the tool), and
the per-email collaborator behaviour. -/
structure OnceEnv where
  healthy : Bool
  fetch : Except Unit (List Email)
  strands : StrandsEnv

/-- Status dict returned by `run_agent_once`. -/
inductive OnceStatus where
  | success
  | error
deriving Repr, DecidableEq

/-- Outcome of `run_agent_once`. -/
structure OnceOutcome where
  status : OnceStatus
  processed : Nat
  results : List ProcessResult
deriving Repr, DecidableEq

/-- `agent_strands.fetch_unprocessed_emails` (lines 74-103): clamp the
requested count to 10, return `[]` on a fetch error (caught inside), and
truncate the result again as an additional safety limit. -/
def fetch_unprocessed_emails (fetch : Except Unit (List Email))
    (max_results : Nat) : List Email :=
  let max_results := min max_results 10
  match fetch with
  | Except.error _ => []
  | Except.ok emails => emails.take max_results

/-- `agent_strands.run_agent_once` (lines 464-672): abort (status error)
when the backend health check fails; otherwise fetch up to
`MAX_EMAILS_PER_RUN` emails and process each with the loop body. -/
def run_agent_once (env : OnceEnv) : OnceOutcome :=
  if !env.healthy then ⟨OnceStatus.error, 0, []⟩
  else
    let emails := fetch_unprocessed_emails env.fetch MAX_EMAILS_PER_RUN
    if emails.isEmpty then ⟨OnceStatus.success, 0, []⟩
    else
      let results := emails.map (strands_process_email env.strands)
      ⟨OnceStatus.success, results.countP (fun r => r.success), results⟩

/-- `agent_strands.run_agent_continuous` (lines 675-706): call
`run_agent_once` exactly `max_iterations` times, sleeping between
iterations (real time is not modelled); the result of one iteration is
never inspected by the loop. -/
def run_agent_continuous (envs : Nat → OnceEnv) (max_iterations : Nat) :
    List OnceOutcome :=
  (List.range max_iterations).map (fun i => run_agent_once (envs i))

/-- `MAX_EMAILS_PER_POLL` default of `agent.py`. -/
def MAX_EMAILS_PER_POLL : Nat := 5

/-- Environment of `agent.agent_main_loop`: whether `get_backend_api()`
succeeded, the startup health-check answer, and per-iteration fetch
results and collaborator behaviour. -/
structure MainLoopEnv where
  init_ok : Bool
  healthy : Bool
  fetch : Nat → Except Unit (List Email)
  agent : Nat → AgentEnv

/-- Counts printed at the end of one main-loop iteration. -/
structure IterationOutcome where
  processed : Nat
  failed : Nat
  results : List ProcessResult
deriving Repr, DecidableEq

/-- One iteration of the `while` loop of `agent.agent_main_loop`
(lines 193-224): a fetch failure is caught (logged) and the iteration
yields nothing; otherwise each fetched email is processed. -/
def agent_loop_iteration (env : MainLoopEnv) (i : Nat) : IterationOutcome :=
  match env.fetch i with
  | Except.error _ => ⟨0, 0, []⟩
  | Except.ok emails =>
    let results := (emails.take MAX_EMAILS_PER_POLL).map (process_single_email (env.agent i))
    ⟨results.countP (fun r => r.success), results.countP (fun r => !r.success), results⟩

/-- Outcome of `agent.agent_main_loop`: whether startup succeeded (backend
init and the one-time health check at lines 174-183) and the outcomes of
the iterations that actually ran. -/
structure MainLoopOutcome where
  started : Bool
  iterations : List IterationOutcome
deriving Repr, DecidableEq

/-- `agent.agent_main_loop` (lines 159-233): a failed backend
initialization or a failed startup health check returns before the
polling loop starts; otherwise the loop runs `max_iterations` times. -/
def agent_main_loop (env : MainLoopEnv) (max_iterations : Nat) : MainLoopOutcome :=
  if !env.init_ok then ⟨false, []⟩
  else if !env.healthy then ⟨false, []⟩
  else ⟨true, (List.range max_iterations).map (agent_loop_iteration env)⟩

/-- A candidate record held by the backend. -/
structure CandidateRec where
  id : Str
  email : Str
  name : Str
deriving Repr, DecidableEq

/-- Modelled from the spec: the backend datastore behind
`GET /api/candidates` and `POST /api/candidates` is not under `src/`
(only its client `BackendAPI` is). Per §6, GET returns every candidate
record and POST `createOrGetCandidate`'s creation path stores one new
record with a fresh id and returns it. -/
structure BackendState where
  candidates : List CandidateRec
  nextId : Nat
deriving Repr, DecidableEq

/-- A fresh id for a newly created candidate record. -/
def freshCandidateId (s : BackendState) : Str := lit "cand-" ++ natToStr s.nextId

/-- `BackendAPI.create_or_get_candidate` (backend_api.py lines 151-197):
GET all candidates, return the first whose `email` equals the argument,
else POST a new record and return it. -/
def create_or_get_candidate (s : BackendState) (email name : Str) :
    CandidateRec × BackendState :=
  match s.candidates.find? (fun c => decide (c.email = email)) with
  | some candidate => (candidate, s)
  | none =>
    let candidate : CandidateRec := { id := freshCandidateId s, email := email, name := name }
    (candidate, { candidates := s.candidates ++ [candidate], nextId := s.nextId + 1 })

/-- Template metadata relevant to validation (`required`/`optional` field
name lists of the metadata JSON). -/
structure TemplateMeta where
  required : List Str
  optional : List Str
deriving Repr, DecidableEq

/-- Outcome of `template_loader.load_metadata`: missing file
(`FileNotFoundError`), invalid JSON/keys (`ValueError`), or the parsed
metadata. -/
inductive MetadataLoad where
  | notFound
  | invalid
  | ok (m : TemplateMeta)

/-- Collaborators of the template micro-service: the metadata store on
disk and the Jinja2 renderer (which may raise). -/
structure McpEnv where
  load_metadata : Str → MetadataLoad
  render : Str → List (Str × Str) → Except Unit Str

/-- The keys of the user-provided data dict. -/
def fieldKeys (data : List (Str × Str)) : List Str := data.map Prod.fst

/-- Validation result dict of `template_loader.validate_template_data`. -/
structure ValidationResult where
  ok : Bool
  missing_fields : List Str
  error : Option Str
deriving Repr, DecidableEq

/-- `template_loader.validate_template_data` (lines 134-173). -/
def validate_template_data (env : McpEnv) (template_id : Str)
    (data : List (Str × Str)) : ValidationResult :=
  match env.load_metadata template_id with
  | MetadataLoad.notFound =>
    ⟨false, [], some (lit "Failed to load template metadata")⟩
  | MetadataLoad.invalid =>
    ⟨false, [], some (lit "Failed to load template metadata")⟩
  | MetadataLoad.ok m =>
    let missing_fields := m.required.filter (fun f => !decide (f ∈ fieldKeys data))
    if missing_fields ≠ [] then
      ⟨false, missing_fields,
        some (lit "Missing required fields: " ++ List.intercalate (lit ", ") missing_fields)⟩
    else
      ⟨true, [], none⟩

/-- The structured responses of `fill_template`; only `success` carries a
rendered document. -/
inductive FillResult where
  | success (template_id rendered_document : Str) (used_fields : List (Str × Str))
  | templateNotFound (message : Str)
  | invalidMetadata (message : Str)
  | missingFields (missing_fields : List Str) (message : Str)
  | renderingError (message : Str)
deriving DecidableEq

/-- `fill_template.fill_template` (lines 11-95). The second component
records whether the Jinja renderer was invoked at all. -/
def fill_template (env : McpEnv) (template_id : Str)
    (field_values : List (Str × Str)) : FillResult × Bool :=
  match env.load_metadata template_id with
  | MetadataLoad.notFound =>
    (FillResult.templateNotFound (lit "Template does not exist"), false)
  | MetadataLoad.invalid =>
    (FillResult.invalidMetadata (lit "Template metadata is invalid"), false)
  | MetadataLoad.ok metadata =>
    let validation := validate_template_data env template_id field_values
    if !validation.ok then
      (FillResult.missingFields validation.missing_fields (validation.error.getD []), false)
    else
      match env.render template_id field_values with
      | Except.error _ =>
        (FillResult.renderingError (lit "Failed to render template"), true)
      | Except.ok rendered_document =>
        let all_fields := metadata.required ++ metadata.optional
        let used_fields := field_values.filter (fun kv => decide (kv.1 ∈ all_fields))
        (FillResult.success template_id rendered_document used_fields, true)

/-- Recognizer for attachment-download calls in an event trace. -/
def isDownloadEv : Event → Bool
  | Event.download _ => true
  | _ => false

/-- Recognizer for document-upload (ingest) calls in an event trace. -/
def isUploadEv : Event → Bool
  | Event.uploadDocument _ _ => true
  | _ => false

/-- A configured LLM whose transport always fails. -/
def failingLlm : LlmFn := fun _ => Except.error (lit "transport failure")

/-- A configured LLM that returns output other than the three category
tokens. -/
def weirdLlm : LlmFn := fun _ => Except.ok (lit "BANANA")

/-- Three attachments, for exercising the one-attachment safety limit. -/
def testAttachments : List Attachment :=
  [{ id := lit "att-1", filename := lit "cv1.pdf" },
   { id := lit "att-2", filename := lit "cv2.pdf" },
   { id := lit "att-3", filename := lit "cv3.pdf" }]

/-- A candidate application carrying three attachments. -/
def testEmailCand : Email :=
  { id := lit "msg-1"
    from_ := lit "Jane Doe <jane@example.com>"
    to_ := lit "hr+candidates@develeap.com"
    subject := lit "Application for Frontend Developer"
    body := lit "Hi, please find my CV attached."
    labels := [lit "hellio/inbox"]
    attachments := testAttachments }

/-- Collaborators that answer every call successfully. -/
def envAllOk : AgentEnv :=
  { download_attachment := fun _ _ _ => [1, 2, 3]
    create_or_get_candidate := fun _ _ => Except.ok { id := lit "cand-1" }
    upload_document := fun _ _ _ => Except.ok { documentId := lit "doc-1" }
    create_notification := fun _ _ _ _ => Except.ok { id := some (lit "notif-1") }
    add_label := fun _ _ => true }

/-- Same collaborators, but every attachment download fails (the Gmail API
error path of `download_attachment` returns empty bytes). -/
def envDownloadFail : AgentEnv :=
  { envAllOk with download_attachment := fun _ _ _ => [] }

/-- Strands collaborators that answer every call successfully. -/
def strandsEnvOk : StrandsEnv :=
  { create_or_get_candidate := fun _ _ => Except.ok { id := lit "cand-1" }
    download_attachment := fun _ _ _ => [1, 2, 3]
    upload_document := fun _ _ _ => Except.ok { documentId := lit "doc-1" }
    create_position := fun title _ _ => Except.ok { id := lit "pos-1", title := title }
    render_template := fun _ _ => none
    create_notification := fun _ _ _ _ => Except.ok { id := some (lit "notif-1") }
    add_label := fun _ _ => true }

/-- A main-loop environment whose startup health check fails. -/
def mainLoopEnvUnhealthy : MainLoopEnv :=
  { init_ok := true
    healthy := false
    fetch := fun _ => Except.ok [testEmailCand]
    agent := fun _ => envAllOk }

/-- The same main-loop environment with a passing health check. -/
def mainLoopEnvHealthy : MainLoopEnv :=
  { mainLoopEnvUnhealthy with healthy := true }

/-- A `run_agent_once` environment whose health check fails. -/
def onceEnvUnhealthy : OnceEnv :=
  { healthy := false, fetch := Except.ok [testEmailCand], strands := strandsEnvOk }

/-- A `run_agent_once` environment whose health check passes. -/
def onceEnvHealthy : OnceEnv :=
  { healthy := true, fetch := Except.ok [testEmailCand], strands := strandsEnvOk }

/-- Iteration environments: the first iteration is unhealthy, later ones
healthy. -/
def witnessOnceEnvs : Nat → OnceEnv :=
  fun i => if i = 0 then onceEnvUnhealthy else onceEnvHealthy

/-- Template metadata fixture. -/
def mcpMetaTest : TemplateMeta :=
  { required := [lit "candidate_name", lit "position_title"]
    optional := [lit "company_name"] }

/-- A metadata store holding one template and a renderer that succeeds. -/
def mcpEnvTest : McpEnv :=
  { load_metadata := fun tid =>
      if tid = lit "hiring_intro_email" then MetadataLoad.ok mcpMetaTest
      else MetadataLoad.notFound
    render := fun _ _ => Except.ok (lit "rendered") }

/-! ## Theorems -/

/-- C3 (code bug evaluation): address-pattern classification is
deterministic in type and method, but the confidence computed by
`classify_email_type` for a deterministic match is `"medium"`, not the
`"high"` the claim states — the source compares the method string against
the bare word `"deterministic"`, which the classifier never produces. -/
theorem claim3_deterministic_confidence_eval :
    (classify_email_type { to_ := lit "jane+candidates@co.com" }).type =
      EmailType.CANDIDATE_APPLICATION ∧
    (classify_email_type { to_ := lit "jane+candidates@co.com" }).method =
      lit "deterministic: +candidates address" ∧
    (classify_email_type { to_ := lit "jane+candidates@co.com" }).confidence = lit "medium" ∧
    (classify_email_type { to_ := lit "ops+positions@co.com" }).type =
      EmailType.POSITION_ANNOUNCEMENT ∧
    (classify_email_type { to_ := lit "ops+positions@co.com" }).method =
      lit "deterministic: +positions address" ∧
    (classify_email_type { to_ := lit "ops+positions@co.com" }).confidence = lit "medium" ∧
    (classify_email_type { to_ := lit "random@co.com" }).type = EmailType.OTHER ∧
    (classify_email_type { to_ := lit "random@co.com" }).method =
      lit "deterministic: no routing pattern matched" ∧
    lit "medium" ≠ lit "high" := by
  decide

/-- C5: calling `create_or_get_candidate` twice with the same email
against the same backend state returns the same candidate both times, the
second call does not change the state, and when no record with that email
existed beforehand exactly one record with that email exists afterwards. -/
theorem claim5_create_or_get_idempotent (s : BackendState) (email name : Str) :
    (create_or_get_candidate (create_or_get_candidate s email name).2 email name).1 =
      (create_or_get_candidate s email name).1 ∧
    (create_or_get_candidate (create_or_get_candidate s email name).2 email name).2 =
      (create_or_get_candidate s email name).2 ∧
    (create_or_get_candidate s email name).2.candidates.length ≤ s.candidates.length + 1 ∧
    (s.candidates.find? (fun c => decide (c.email = email)) = none →
      (create_or_get_candidate s email name).2.candidates.length = s.candidates.length + 1 ∧
      ((create_or_get_candidate s email name).2.candidates.filter
          (fun c => decide (c.email = email))).length = 1) := by
  cases h : s.candidates.find? (fun c => decide (c.email = email)) with
  | some c =>
    refine ⟨?_, ?_, ?_, ?_⟩ <;> simp [create_or_get_candidate, h]
  | none =>
    have hall := List.find?_eq_none.mp h
    have hfilter : s.candidates.filter (fun c => decide (c.email = email)) = [] := by
      apply List.filter_eq_nil_iff.mpr
      intro a ha
      simpa using hall a ha
    have hfind2 :
        (s.candidates ++
          [(⟨freshCandidateId s, email, name⟩ : CandidateRec)]).find?
            (fun c => decide (c.email = email)) =
          some (⟨freshCandidateId s, email, name⟩ : CandidateRec) := by
      rw [List.find?_append, h]
      simp
    refine ⟨?_, ?_, ?_, ?_⟩
    · simp [create_or_get_candidate, h, hfind2]
    · simp [create_or_get_candidate, h, hfind2]
    · simp [create_or_get_candidate, h]
    · intro _
      constructor
      · simp [create_or_get_candidate, h]
      · simp [create_or_get_candidate, h, List.filter_append, hfilter]

/-- C5 witness: a fresh backend state, concrete email. -/
theorem claim5_witness :
    (create_or_get_candidate
        (create_or_get_candidate ⟨[], 0⟩ (lit "a@b.com") (lit "A")).2
        (lit "a@b.com") (lit "A")).1 =
      (create_or_get_candidate ⟨[], 0⟩ (lit "a@b.com") (lit "A")).1 ∧
    ((create_or_get_candidate ⟨[], 0⟩ (lit "a@b.com") (lit "A")).2.candidates.filter
        (fun c => decide (c.email = lit "a@b.com"))).length = 1 :=
  ⟨(claim5_create_or_get_idempotent ⟨[], 0⟩ (lit "a@b.com") (lit "A")).1,
   ((claim5_create_or_get_idempotent ⟨[], 0⟩ (lit "a@b.com") (lit "A")).2.2.2
      (by decide)).2⟩

/-- C6 (amended): the LLM fallback is consulted only when the
deterministic result is OTHER and a function is configured; without one,
classification completes with the deterministic result. Because the
fallback body is a placeholder that never invokes the configured function,
its result does not depend on the function at all — so neither a transport
failure nor unexpected output can propagate an error, and every fallback
classification is `(OTHER, "llm: classified as OTHER")`. -/
theorem claim6_llm_fallback (email : Email) (f g : LlmFn) :
    ((classify_email email none).1 = (classify_email_deterministic email).1 ∧
     (classify_email email none).2.1 = (classify_email_deterministic email).2) ∧
    ((classify_email_deterministic email).1 ≠ EmailType.OTHER →
      classify_email email (some f) = classify_email email none) ∧
    ((classify_email_deterministic email).1 = EmailType.OTHER →
      (classify_email email (some f)).1 = EmailType.OTHER ∧
      (classify_email email (some f)).2.1 = lit "llm: classified as OTHER") ∧
    classify_email email (some f) = classify_email email (some g) := by
  unfold classify_email classify_email_with_llm
  cases hdet : classify_email_deterministic email with
  | mk t m =>
    cases t <;> simp

/-- C6 witness: a concrete email whose deterministic result is not OTHER,
so a configured (here: failing) LLM is not consulted. -/
theorem claim6_witness :
    classify_email { to_ := lit "jane+candidates@co.com" } (some failingLlm) =
      classify_email { to_ := lit "jane+candidates@co.com" } none :=
  (claim6_llm_fallback { to_ := lit "jane+candidates@co.com" } failingLlm weirdLlm).2.1
    (by decide)

/-- C6 counterexample: with a transport-failing (or garbage-producing) LLM
configured, the fallback result's method is `"llm: classified as OTHER"`,
never the `"error"` of the claimed `(Other, error, low)` degradation — the
placeholder never reaches the model, so an LLM failure cannot produce the
error/low triple. -/
theorem claim6_counterexample :
    (classify_email { to_ := lit "random@co.com" } (some failingLlm)).2.1 =
      lit "llm: classified as OTHER" ∧
    (classify_email { to_ := lit "random@co.com" } (some failingLlm)).2.1 ≠ lit "error" ∧
    (classify_email { to_ := lit "random@co.com" } (some weirdLlm)).2.1 ≠ lit "error" := by
  decide

/-- C8: a position announcement derives its title by stripping the known
prefix phrases case-insensitively from the subject, uses the stripped body
as description with the subject as fallback when the body is blank,
assigns the default department `"Engineering"`, and on backend success
records the created position's id in the outcome. -/
theorem claim8_position_ingest (env : StrandsEnv)
    (email_subject email_body email_from : Str) (pos : PositionRec)
    (hcreate : env.create_position ((stripPositionPrefix email_subject).take 200)
        (lit "Engineering")
        (if pyStrip email_body ≠ [] then pyStrip email_body else email_subject) =
      Except.ok pos) :
    process_position_announcement env email_subject email_body email_from =
      ⟨true, some pos.id, some pos.title⟩ := by
  simp only [process_position_announcement]
  rw [hcreate]

/-- C8 witness: the `"New Position:"` prefix is stripped (any letter
case), the blank body falls back to the subject, and the position id is
recorded. -/
theorem claim8_witness :
    process_position_announcement strandsEnvOk
        (lit "new position: Backend Engineer") (lit "   ") (lit "hm@co.com") =
      ⟨true, some (lit "pos-1"), some (lit "Backend Engineer")⟩ :=
  claim8_position_ingest strandsEnvOk (lit "new position: Backend Engineer")
    (lit "   ") (lit "hm@co.com") ⟨lit "pos-1", lit "Backend Engineer"⟩ (by rfl)

/-- C9: in `agent.process_single_email`, when the first attachment of a
candidate application fails to download (empty bytes), the function
returns `False` having issued only the download call — no candidate
creation, no upload, no notification, and the label set is unchanged. -/
theorem claim9_failed_download_aborts (env : AgentEnv) (email : Email)
    (attachment : Attachment) (rest : List Attachment)
    (hatts : email.attachments = attachment :: rest)
    (htype : (classify_email email).1 = EmailType.CANDIDATE_APPLICATION)
    (hdl : env.download_attachment email.id attachment.id attachment.filename = []) :
    process_single_email env email =
      ⟨false, [Event.download attachment.id], email.labels⟩ := by
  unfold process_single_email
  rw [hatts]
  simp [htype, hdl]

/-- C9 witness: concrete candidate email whose download fails. -/
theorem claim9_witness :
    process_single_email envDownloadFail testEmailCand =
      ⟨false, [Event.download (lit "att-1")], [lit "hellio/inbox"]⟩ :=
  claim9_failed_download_aborts envDownloadFail testEmailCand
    { id := lit "att-1", filename := lit "cv1.pdf" }
    [{ id := lit "att-2", filename := lit "cv2.pdf" },
     { id := lit "att-3", filename := lit "cv3.pdf" }]
    (by decide) (by decide) (by decide)

/-- Auxiliary: character membership distributes over append. -/
theorem pyContainsChar_append (s t : Str) (c : Char) :
    pyContainsChar (s ++ t) c = (pyContainsChar s c || pyContainsChar t c) := by
  simp [pyContainsChar, List.any_append]

/-- Auxiliary: the first occurrence of `c` in `s ++ t` lies in `t` when
`s` is free of `c`. -/
theorem pyIndexChar_append_of_not (s t : Str) (c : Char)
    (h : pyContainsChar s c = false) :
    pyIndexChar (s ++ t) c = s.length + pyIndexChar t c := by
  induction s with
  | nil => simp [pyIndexChar]
  | cons a s ih =>
    rw [pyContainsChar, List.any_cons, Bool.or_eq_false_iff] at h
    have ha : ¬ (a = c) := by simpa using h.1
    have hs : pyContainsChar s c = false := h.2
    show (if a = c then 0 else pyIndexChar (s ++ t) c + 1) = (a :: s).length + pyIndexChar t c
    rw [if_neg ha, ih hs]
    simp only [List.length_cons]
    omega

/-- Auxiliary: on a field of shape `name < addr > rest` whose display name
contains no angle bracket and whose address part contains no `>`,
`parse_email_address` extracts exactly the bracketed address. -/
theorem parse_email_address_bracketed (name addr rest : Str)
    (hn1 : pyContainsChar name '<' = false)
    (hn2 : pyContainsChar name '>' = false)
    (ha : pyContainsChar addr '>' = false) :
    parse_email_address (name ++ '<' :: (addr ++ '>' :: rest)) =
      pyLower (pyStrip addr) := by
  have hlt : pyContainsChar (name ++ '<' :: (addr ++ '>' :: rest)) '<' = true := by
    rw [pyContainsChar_append]
    simp [pyContainsChar]
  have hgt : pyContainsChar (name ++ '<' :: (addr ++ '>' :: rest)) '>' = true := by
    rw [pyContainsChar_append]
    simp [pyContainsChar, List.any_append]
  have hidx1 : pyIndexChar (name ++ '<' :: (addr ++ '>' :: rest)) '<' = name.length := by
    rw [pyIndexChar_append_of_not _ _ _ hn1]
    simp [pyIndexChar]
  have hidx2 : pyIndexChar (name ++ '<' :: (addr ++ '>' :: rest)) '>' =
      name.length + (addr.length + 1) := by
    rw [pyIndexChar_append_of_not _ _ _ hn2]
    have hone : pyIndexChar ('<' :: (addr ++ '>' :: rest)) '>' = addr.length + 1 := by
      simp only [pyIndexChar, if_neg (by decide : ¬ ('<' = '>'))]
      rw [pyIndexChar_append_of_not _ _ _ ha]
      simp [pyIndexChar]
    rw [hone]
  have hdrop : (name ++ '<' :: (addr ++ '>' :: rest)).drop (name.length + 1) =
      addr ++ '>' :: rest := by
    rw [List.append_cons name '<' (addr ++ '>' :: rest)]
    exact List.drop_left' (by simp)
  unfold parse_email_address
  rw [hlt, hgt]
  simp only [Bool.and_self, if_true, hidx1, hidx2, pySlice]
  rw [hdrop]
  have htake : (addr ++ '>' :: rest).take (name.length + (addr.length + 1) - (name.length + 1)) =
      addr := by
    have harith : name.length + (addr.length + 1) - (name.length + 1) = addr.length := by
      omega
    rw [harith]
    exact List.take_left' rfl
  rw [htake]

/-- C10 counterexample: two `to` fields both enclosing
`<jane+candidates@co.com>`, yet classified differently — a display name
containing `>` before the bracketed address empties the parsed address
(the parser slices between the first `<` and the first `>`), so text
outside the brackets does affect the outcome. -/
theorem claim10_counterexample :
    containsSub (lit "A> <jane+candidates@co.com>") (lit "<jane+candidates@co.com>") = true ∧
    containsSub (lit "B <jane+candidates@co.com>") (lit "<jane+candidates@co.com>") = true ∧
    (classify_email_deterministic { to_ := lit "A> <jane+candidates@co.com>" }).1 =
      EmailType.OTHER ∧
    (classify_email_deterministic { to_ := lit "B <jane+candidates@co.com>" }).1 =
      EmailType.CANDIDATE_APPLICATION ∧
    classify_email_deterministic { to_ := lit "A> <jane+candidates@co.com>" } ≠
      classify_email_deterministic { to_ := lit "B <jane+candidates@co.com>" } := by
  decide

/-- C10 (amended): deterministic classification depends only on the
address enclosed by the first `<`/`>` pair, compared case-insensitively
(and up to surrounding whitespace), provided the display name before the
brackets contains no angle bracket and the address part contains no `>`;
such display-name text never affects the outcome. -/
theorem claim10_display_name_independent
    (e1 e2 : Email) (name1 name2 addr1 addr2 rest1 rest2 : Str)
    (h1 : e1.to_ = name1 ++ '<' :: (addr1 ++ '>' :: rest1))
    (h2 : e2.to_ = name2 ++ '<' :: (addr2 ++ '>' :: rest2))
    (hn1lt : pyContainsChar name1 '<' = false)
    (hn1gt : pyContainsChar name1 '>' = false)
    (hn2lt : pyContainsChar name2 '<' = false)
    (hn2gt : pyContainsChar name2 '>' = false)
    (ha1 : pyContainsChar addr1 '>' = false)
    (ha2 : pyContainsChar addr2 '>' = false)
    (haddr : pyLower (pyStrip addr1) = pyLower (pyStrip addr2)) :
    classify_email_deterministic e1 = classify_email_deterministic e2 := by
  unfold classify_email_deterministic
  rw [h1, h2, parse_email_address_bracketed name1 addr1 rest1 hn1lt hn1gt ha1,
    parse_email_address_bracketed name2 addr2 rest2 hn2lt hn2gt ha2, haddr]

/-- C10 witness: same bracketed address up to case, different display
names and trailing text. -/
theorem claim10_witness :
    classify_email_deterministic { to_ := lit "Jane Doe <JANE+CANDIDATES@CO.COM>" } =
      classify_email_deterministic { to_ := lit "Bob <jane+candidates@co.com> x" } :=
  claim10_display_name_independent
    { to_ := lit "Jane Doe <JANE+CANDIDATES@CO.COM>" }
    { to_ := lit "Bob <jane+candidates@co.com> x" }
    (lit "Jane Doe ") (lit "Bob ")
    (lit "JANE+CANDIDATES@CO.COM") (lit "jane+candidates@co.com")
    (lit "") (lit " x")
    (by decide) (by decide) (by decide) (by decide)
    (by decide) (by decide) (by decide) (by decide) (by decide)

/-- C7: `fill_template` with a required field omitted returns the
MISSING_FIELDS error carrying exactly the omitted required fields and no
rendered output, without ever invoking the renderer; and in general the
renderer is only ever invoked after validation has passed. -/
theorem claim7_missing_fields (env : McpEnv) (template_id : Str)
    (data : List (Str × Str)) (m : TemplateMeta) (f : Str)
    (hm : env.load_metadata template_id = MetadataLoad.ok m)
    (hreq : f ∈ m.required) (habs : f ∉ fieldKeys data) :
    (fill_template env template_id data).1 =
      FillResult.missingFields
        (m.required.filter (fun x => !decide (x ∈ fieldKeys data)))
        (lit "Missing required fields: " ++
          List.intercalate (lit ", ")
            (m.required.filter (fun x => !decide (x ∈ fieldKeys data)))) ∧
    f ∈ m.required.filter (fun x => !decide (x ∈ fieldKeys data)) ∧
    (fill_template env template_id data).2 = false ∧
    (∀ (e2 : McpEnv) (t2 : Str) (d2 : List (Str × Str)),
      (fill_template e2 t2 d2).2 = true →
        (validate_template_data e2 t2 d2).ok = true) := by
  have hmem : f ∈ m.required.filter (fun x => !decide (x ∈ fieldKeys data)) := by
    refine List.mem_filter.mpr ⟨hreq, ?_⟩
    simpa using habs
  have hne : m.required.filter (fun x => !decide (x ∈ fieldKeys data)) ≠ [] :=
    List.ne_nil_of_mem hmem
  refine ⟨?_, hmem, ?_, ?_⟩
  · simp [fill_template, validate_template_data, hm, hne]
  · simp [fill_template, validate_template_data, hm, hne]
  · intro e2 t2 d2 h2
    unfold fill_template at h2
    cases hl : e2.load_metadata t2 with
    | notFound => rw [hl] at h2; simp at h2
    | invalid => rw [hl] at h2; simp at h2
    | ok m2 =>
      rw [hl] at h2
      by_cases hv : (validate_template_data e2 t2 d2).ok = true
      · exact hv
      · rw [Bool.not_eq_true] at hv
        simp [hv] at h2

/-- C7 witness: one omitted required field on a concrete template. -/
theorem claim7_witness :
    (fill_template mcpEnvTest (lit "hiring_intro_email")
        [(lit "candidate_name", lit "Jane")]).1 =
      FillResult.missingFields [lit "position_title"]
        (lit "Missing required fields: position_title") ∧
    (fill_template mcpEnvTest (lit "hiring_intro_email")
        [(lit "candidate_name", lit "Jane")]).2 = false := by
  have h := claim7_missing_fields mcpEnvTest (lit "hiring_intro_email")
    [(lit "candidate_name", lit "Jane")] mcpMetaTest (lit "position_title")
    (by rfl) (by decide) (by decide)
  exact ⟨by rw [h.1]; rfl, h.2.2.1⟩

/-- Auxiliary: when the ingest step produced ids, the spec-side success
predicate reduces to the notify-and-label tail. -/
theorem allRequiredStepsOk_of_ingest (env : AgentEnv) (email : Email)
    (ids : Option Str × Option Str) (hi : ingestOutcome env email = some ids) :
    allRequiredStepsOk env email =
      (match agentNotifyCall env email (classify_email email).1
          (classify_email email).2.1 (classify_email email).2.2 ids.1 ids.2 with
        | Except.error _ => false
        | Except.ok n => notifTruthy n && env.add_label email.id GMAIL_PROCESSED_LABEL) := by
  unfold allRequiredStepsOk
  rw [hi]

/-- Auxiliary: when the ingest step failed, the spec-side success
predicate is false. -/
theorem allRequiredStepsOk_of_ingest_fail (env : AgentEnv) (email : Email)
    (hi : ingestOutcome env email = none) :
    allRequiredStepsOk env email = false := by
  unfold allRequiredStepsOk
  rw [hi]

/-- Auxiliary: `process_single_email` either aborts before the notify step
(failed required ingest: unchanged labels, no label call, reported
failed), or hands over to the notify-then-label tail with the ids the
ingest step produced and a trace free of label calls. -/
theorem process_single_email_characterization (env : AgentEnv) (email : Email) :
    (ingestOutcome env email = none ∧
      (process_single_email env email).success = false ∧
      (process_single_email env email).labels = email.labels ∧
      (∀ l, Event.addLabel l ∉ (process_single_email env email).events)) ∨
    (∃ ids evs, ingestOutcome env email = some ids ∧
      (∀ l, Event.addLabel l ∉ evs) ∧
      process_single_email env email =
        agentFinishNotify env email (classify_email email).1
          (classify_email email).2.1 (classify_email email).2.2 ids.1 ids.2 evs) := by
  by_cases hty : (classify_email email).1 = EmailType.CANDIDATE_APPLICATION
  · cases hatts : email.attachments with
    | nil =>
      right
      refine ⟨(none, none), [], ?_, by simp, ?_⟩
      · simp [ingestOutcome, hty, hatts]
      · simp [process_single_email, hty, hatts]
    | cons a rest =>
      by_cases hdl : env.download_attachment email.id a.id a.filename = []
      · left
        refine ⟨?_, ?_, ?_, ?_⟩
        · simp [ingestOutcome, hty, hatts, hdl]
        · simp [process_single_email, hty, hatts, hdl]
        · simp [process_single_email, hty, hatts, hdl]
        · intro l
          simp [process_single_email, hty, hatts, hdl]
      · cases hcand : env.create_or_get_candidate (parse_email_address email.from_)
            (extract_name_from_email email.from_) with
        | error e =>
          left
          refine ⟨?_, ?_, ?_, ?_⟩
          · simp [ingestOutcome, hty, hatts, hdl, hcand]
          · simp [process_single_email, hty, hatts, hdl, hcand]
          · simp [process_single_email, hty, hatts, hdl, hcand]
          · intro l
            simp [process_single_email, hty, hatts, hdl, hcand]
        | ok cand =>
          cases hup : env.upload_document cand.id
              (env.download_attachment email.id a.id a.filename) a.filename with
          | error e =>
            left
            refine ⟨?_, ?_, ?_, ?_⟩
            · simp [ingestOutcome, hty, hatts, hdl, hcand, hup]
            · simp [process_single_email, hty, hatts, hdl, hcand, hup]
            · simp [process_single_email, hty, hatts, hdl, hcand, hup]
            · intro l
              simp [process_single_email, hty, hatts, hdl, hcand, hup]
          | ok up =>
            right
            refine ⟨(some cand.id, some up.documentId),
              [Event.download a.id,
               Event.createCandidate (parse_email_address email.from_)
                 (extract_name_from_email email.from_),
               Event.uploadDocument cand.id a.filename], ?_, ?_, ?_⟩
            · simp [ingestOutcome, hty, hatts, hdl, hcand, hup]
            · intro l
              simp
            · simp [process_single_email, hty, hatts, hdl, hcand, hup]
  · right
    refine ⟨(none, none), [], ?_, by simp, ?_⟩
    · simp [ingestOutcome, hty]
    · simp [process_single_email, hty]

/-- Auxiliary: behaviour of the notify-then-label tail of
`process_single_email`, for traces `evs` free of label calls. -/
theorem agentFinishNotify_spec (env : AgentEnv) (email : Email)
    (etype : EmailType) (cm : Str) (info : ExtractedInfo)
    (cid did : Option Str) (evs : List Event)
    (hno : ∀ l, Event.addLabel l ∉ evs) :
    ((agentFinishNotify env email etype cm info cid did evs).labels = email.labels ∨
      (agentFinishNotify env email etype cm info cid did evs).labels =
        email.labels ++ [GMAIL_PROCESSED_LABEL]) ∧
    (GMAIL_PROCESSED_LABEL ∈ (agentFinishNotify env email etype cm info cid did evs).labels ↔
      GMAIL_PROCESSED_LABEL ∈ email.labels ∨
        ((agentFinishNotify env email etype cm info cid did evs).success = true ∧
          env.add_label email.id GMAIL_PROCESSED_LABEL = true)) ∧
    (∀ l, Event.addLabel l ∈ (agentFinishNotify env email etype cm info cid did evs).events →
      l = GMAIL_PROCESSED_LABEL ∧
      (agentFinishNotify env email etype cm info cid did evs).success = true) ∧
    ((agentFinishNotify env email etype cm info cid did evs).success = true →
      (agentFinishNotify env email etype cm info cid did evs).events =
        evs ++ [Event.createNotification, Event.addLabel GMAIL_PROCESSED_LABEL]) ∧
    ((agentFinishNotify env email etype cm info cid did evs).success = true ↔
      ∃ n, agentNotifyCall env email etype cm info cid did = Except.ok n ∧
        notifTruthy n = true) := by
  unfold agentFinishNotify
  cases hn : agentNotifyCall env email etype cm info cid did with
  | error e =>
    refine ⟨Or.inl rfl, by simp, ?_, by simp, by simp⟩
    intro l hl
    exfalso
    rcases List.mem_append.mp hl with h | h
    · exact hno l h
    · simp at h
  | ok n =>
    by_cases ht : notifTruthy n = true
    · refine ⟨?_, ?_, ?_, ?_, ?_⟩
      · by_cases hlab : env.add_label email.id GMAIL_PROCESSED_LABEL = true
        · right
          simp [ht, hlab]
        · left
          simp [ht, hlab]
      · by_cases hlab : env.add_label email.id GMAIL_PROCESSED_LABEL = true <;>
          simp [ht, hlab, List.mem_append]
      · intro l hl
        simp only [ht, if_true] at hl
        refine ⟨?_, by simp [ht]⟩
        rcases List.mem_append.mp hl with h | h
        · exact absurd h (hno l)
        · simpa using h
      · intro _
        simp [ht]
      · simp [ht]
    · refine ⟨Or.inl (by simp [ht]), by simp [ht], ?_, by simp [ht], by simp [ht]⟩
      intro l hl
      simp only [ht, if_false] at hl
      exfalso
      rcases List.mem_append.mp hl with h | h
      · exact hno l h
      · simp at h

/-- Auxiliary: the candidate-application tool never issues a label call. -/
theorem strands_cand_app_no_label (senv : StrandsEnv) (email_id email_from : Str)
    (aid afn : Option Str) :
    ∀ l, Event.addLabel l ∉
      (strands_process_candidate_application senv email_id email_from aid afn).events := by
  intro l
  unfold strands_process_candidate_application
  cases hc : senv.create_or_get_candidate (parse_email_address email_from)
      (extract_name_from_email email_from) with
  | error e => simp [hc]
  | ok cand =>
    by_cases ha : pyTruthyOpt aid = true ∧ pyTruthyOpt afn = true
    · by_cases hd : senv.download_attachment email_id (aid.getD []) (afn.getD []) = []
      · simp [hc, ha, hd]
      · cases hu : senv.upload_document cand.id
            (senv.download_attachment email_id (aid.getD []) (afn.getD []))
            (afn.getD []) with
        | error e2 => simp [hc, ha, hd, hu]
        | ok up => simp [hc, ha, hd, hu]
    · simp [hc, ha]

/-- Auxiliary: behaviour of the notify-then-mark tail of the Strands
per-email loop body, for traces `evs` free of label calls. -/
theorem strandsFinishNotify_spec (senv : StrandsEnv) (email : Email)
    (etype : EmailType) (m : Str) (cid : Option Str) (pres : PositionResult)
    (did : Option Str) (evs : List Event)
    (hno : ∀ l, Event.addLabel l ∉ evs) :
    ((strandsFinishNotify senv email etype m cid pres did evs).labels = email.labels ∨
      (strandsFinishNotify senv email etype m cid pres did evs).labels =
        email.labels ++ [GMAIL_PROCESSED_LABEL]) ∧
    (GMAIL_PROCESSED_LABEL ∈ (strandsFinishNotify senv email etype m cid pres did evs).labels ↔
      GMAIL_PROCESSED_LABEL ∈ email.labels ∨
        ((strandsFinishNotify senv email etype m cid pres did evs).success = true ∧
          senv.add_label email.id GMAIL_PROCESSED_LABEL = true)) ∧
    (∀ l, Event.addLabel l ∈ (strandsFinishNotify senv email etype m cid pres did evs).events →
      l = GMAIL_PROCESSED_LABEL ∧
      (strandsFinishNotify senv email etype m cid pres did evs).success = true) ∧
    ((strandsFinishNotify senv email etype m cid pres did evs).success = true →
      (strandsFinishNotify senv email etype m cid pres did evs).events =
        evs ++ [Event.createNotification, Event.addLabel GMAIL_PROCESSED_LABEL]) := by
  unfold strandsFinishNotify
  cases hn : strandsNotifyCall senv email etype m cid pres did with
  | error e =>
    refine ⟨Or.inl rfl, by simp, ?_, by simp⟩
    intro l hl
    exfalso
    rcases List.mem_append.mp hl with h | h
    · exact hno l h
    · simp at h
  | ok n =>
    dsimp only
    cases hid : n.id with
    | none =>
      refine ⟨Or.inl rfl, by simp, ?_, by simp⟩
      intro l hl
      exfalso
      rcases List.mem_append.mp hl with h | h
      · exact hno l h
      · simp at h
    | some nid =>
      refine ⟨?_, ?_, ?_, ?_⟩
      · by_cases hlab : senv.add_label email.id GMAIL_PROCESSED_LABEL = true
        · right
          simp [hlab]
        · left
          simp [hlab]
      · by_cases hlab : senv.add_label email.id GMAIL_PROCESSED_LABEL = true <;>
          simp [hlab, List.mem_append]
      · intro l hl
        refine ⟨?_, rfl⟩
        rcases List.mem_append.mp hl with h | h
        · exact absurd h (hno l)
        · simpa using h
      · intro _
        rfl

/-- Auxiliary: the Strands loop body either aborts before the notify step
(unchanged labels, reported failed, no label call), or hands over to the
notify-then-mark tail with a trace free of label calls. -/
theorem strands_process_email_characterization (senv : StrandsEnv) (email : Email) :
    ((strands_process_email senv email).success = false ∧
      (strands_process_email senv email).labels = email.labels ∧
      (∀ l, Event.addLabel l ∉ (strands_process_email senv email).events)) ∨
    (∃ etype m cid pres did evs, (∀ l, Event.addLabel l ∉ evs) ∧
      strands_process_email senv email =
        strandsFinishNotify senv email etype m cid pres did evs) := by
  by_cases hty : (classify_email_type email).type = EmailType.CANDIDATE_APPLICATION
  · cases hatts : email.attachments with
    | nil =>
      right
      refine ⟨EmailType.CANDIDATE_APPLICATION, (classify_email_type email).method, none,
        ⟨false, none, none⟩,
        (if (strands_create_draft_reply senv email.id (parse_email_address email.from_)
              (lit "candidate_welcome_no_position")
              [(lit "candidate_name", extract_name_from_email email.from_)]).success = true
         then (strands_create_draft_reply senv email.id (parse_email_address email.from_)
              (lit "candidate_welcome_no_position")
              [(lit "candidate_name", extract_name_from_email email.from_)]).draft_id
         else none),
        [], by simp, ?_⟩
      simp [strands_process_email, hty, hatts]
    | cons a rest =>
      by_cases hres : (strands_process_candidate_application senv email.id email.from_
          (some a.id) (some a.filename)).success = true
      · right
        refine ⟨EmailType.CANDIDATE_APPLICATION, (classify_email_type email).method,
          (strands_process_candidate_application senv email.id email.from_
            (some a.id) (some a.filename)).candidate_id,
          ⟨false, none, none⟩,
          (if (strands_create_draft_reply senv email.id (parse_email_address email.from_)
                (lit "candidate_welcome_no_position")
                [(lit "candidate_name", extract_name_from_email email.from_)]).success = true
           then (strands_create_draft_reply senv email.id (parse_email_address email.from_)
                (lit "candidate_welcome_no_position")
                [(lit "candidate_name", extract_name_from_email email.from_)]).draft_id
           else none),
          (strands_process_candidate_application senv email.id email.from_
            (some a.id) (some a.filename)).events,
          strands_cand_app_no_label senv email.id email.from_ (some a.id) (some a.filename),
          ?_⟩
        simp [strands_process_email, hty, hatts, hres]
      · left
        refine ⟨?_, ?_, ?_⟩
        · simp [strands_process_email, hty, hatts, hres]
        · simp [strands_process_email, hty, hatts, hres]
        · intro l
          have hev : (strands_process_email senv email).events =
              (strands_process_candidate_application senv email.id email.from_
                (some a.id) (some a.filename)).events := by
            simp [strands_process_email, hty, hatts, hres]
          rw [hev]
          exact strands_cand_app_no_label senv email.id email.from_
            (some a.id) (some a.filename) l
  · by_cases hty2 : (classify_email_type email).type = EmailType.POSITION_ANNOUNCEMENT
    · by_cases hpos : (process_position_announcement senv email.subject email.body
          email.from_).success = true
      · right
        refine ⟨EmailType.POSITION_ANNOUNCEMENT, (classify_email_type email).method, none,
          process_position_announcement senv email.subject email.body email.from_,
          (if (strands_create_draft_reply senv email.id (parse_email_address email.from_)
                (lit "position_acknowledgment")
                [(lit "position_title",
                  (process_position_announcement senv email.subject email.body
                    email.from_).title.getD []),
                 (lit "department", lit "Engineering"),
                 (lit "candidate_match_info", [])]).success = true
           then (strands_create_draft_reply senv email.id (parse_email_address email.from_)
                (lit "position_acknowledgment")
                [(lit "position_title",
                  (process_position_announcement senv email.subject email.body
                    email.from_).title.getD []),
                 (lit "department", lit "Engineering"),
                 (lit "candidate_match_info", [])]).draft_id
           else none),
          [], by simp, ?_⟩
        simp [strands_process_email, hty, hty2, hpos]
      · left
        refine ⟨?_, ?_, ?_⟩
        · simp [strands_process_email, hty, hty2, hpos]
        · simp [strands_process_email, hty, hty2, hpos]
        · intro l
          simp [strands_process_email, hty, hty2, hpos]
    · right
      refine ⟨(classify_email_type email).type, (classify_email_type email).method, none,
        ⟨false, none, none⟩, none, [], by simp, ?_⟩
      simp [strands_process_email, hty, hty2]

/-- C1: in both pipelines the processed marker is applied only after
notification creation succeeded (the label call, when issued, directly
follows a successful notification and the item is reported processed); a
failed required earlier step leaves the message unlabeled and reported
failed; a marker is never retracted (the label set only ever gains the
marker); and after a run the marker is present iff it was present before
or every required step — ingest when required, notification with an id,
and the label call itself — succeeded in this run. -/
theorem claim1_processed_marker_iff (env : AgentEnv) (senv : StrandsEnv) (email : Email) :
    (((process_single_email env email).labels = email.labels ∨
       (process_single_email env email).labels = email.labels ++ [GMAIL_PROCESSED_LABEL]) ∧
     (GMAIL_PROCESSED_LABEL ∈ (process_single_email env email).labels ↔
       GMAIL_PROCESSED_LABEL ∈ email.labels ∨ allRequiredStepsOk env email = true) ∧
     (∀ l, Event.addLabel l ∈ (process_single_email env email).events →
       l = GMAIL_PROCESSED_LABEL ∧ (process_single_email env email).success = true) ∧
     ((process_single_email env email).success = true →
       ∃ pre, (process_single_email env email).events =
         pre ++ [Event.createNotification, Event.addLabel GMAIL_PROCESSED_LABEL]) ∧
     (ingestOutcome env email = none → (process_single_email env email).success = false)) ∧
    (((strands_process_email senv email).labels = email.labels ∨
       (strands_process_email senv email).labels = email.labels ++ [GMAIL_PROCESSED_LABEL]) ∧
     (GMAIL_PROCESSED_LABEL ∈ (strands_process_email senv email).labels ↔
       GMAIL_PROCESSED_LABEL ∈ email.labels ∨
         ((strands_process_email senv email).success = true ∧
           senv.add_label email.id GMAIL_PROCESSED_LABEL = true)) ∧
     (∀ l, Event.addLabel l ∈ (strands_process_email senv email).events →
       l = GMAIL_PROCESSED_LABEL ∧ (strands_process_email senv email).success = true) ∧
     ((strands_process_email senv email).success = true →
       ∃ pre, (strands_process_email senv email).events =
         pre ++ [Event.createNotification, Event.addLabel GMAIL_PROCESSED_LABEL])) := by
  constructor
  · obtain ⟨hi, hs, hlb, hev⟩ | ⟨ids, evs, hi, hno, heq⟩ :=
      process_single_email_characterization env email
    · refine ⟨Or.inl hlb, ?_, ?_, ?_, fun _ => hs⟩
      · rw [hlb, allRequiredStepsOk_of_ingest_fail env email hi]
        simp
      · intro l hl
        exact absurd hl (hev l)
      · intro h
        rw [hs] at h
        exact absurd h (by simp)
    · have spec := agentFinishNotify_spec env email (classify_email email).1
        (classify_email email).2.1 (classify_email email).2.2 ids.1 ids.2 evs hno
      rw [heq]
      refine ⟨spec.1, ?_, spec.2.2.1, fun h => ⟨evs, spec.2.2.2.1 h⟩, ?_⟩
      · rw [spec.2.1, allRequiredStepsOk_of_ingest env email ids hi]
        cases hn : agentNotifyCall env email (classify_email email).1
            (classify_email email).2.1 (classify_email email).2.2 ids.1 ids.2 with
        | error e =>
          have hsucc : ¬ ((agentFinishNotify env email (classify_email email).1
              (classify_email email).2.1 (classify_email email).2.2
              ids.1 ids.2 evs).success = true) := by
            rw [spec.2.2.2.2]
            simp [hn]
          simp [hsucc]
        | ok n =>
          have hsucc : (agentFinishNotify env email (classify_email email).1
              (classify_email email).2.1 (classify_email email).2.2
              ids.1 ids.2 evs).success = true ↔ notifTruthy n = true := by
            rw [spec.2.2.2.2]
            simp [hn]
          simp [hsucc, Bool.and_eq_true]
      · intro h
        rw [hi] at h
        exact absurd h (by simp)
  · obtain ⟨hs, hlb, hev⟩ | ⟨etype, m, cid, pres, did, evs, hno, heq⟩ :=
      strands_process_email_characterization senv email
    · refine ⟨Or.inl hlb, ?_, ?_, ?_⟩
      · rw [hlb, hs]
        simp
      · intro l hl
        exact absurd hl (hev l)
      · intro h
        rw [hs] at h
        exact absurd h (by simp)
    · have spec := strandsFinishNotify_spec senv email etype m cid pres did evs hno
      rw [heq]
      exact ⟨spec.1, spec.2.1, spec.2.2.1, fun h => ⟨evs, spec.2.2.2 h⟩⟩

/-- C1 witness: with all collaborators answering successfully, the marker
is present for the concrete candidate application after the run. -/
theorem claim1_witness :
    GMAIL_PROCESSED_LABEL ∈ (process_single_email envAllOk testEmailCand).labels :=
  ((claim1_processed_marker_iff envAllOk strandsEnvOk testEmailCand).1.2.1).mpr
    (Or.inr (by decide))

/-- Auxiliary: the notify-then-label tail issues no download or upload
calls beyond those already in `evs`. -/
theorem agentFinishNotify_counts (env : AgentEnv) (email : Email)
    (etype : EmailType) (cm : Str) (info : ExtractedInfo)
    (cid did : Option Str) (evs : List Event) :
    ((agentFinishNotify env email etype cm info cid did evs).events.countP isDownloadEv =
      evs.countP isDownloadEv) ∧
    ((agentFinishNotify env email etype cm info cid did evs).events.countP isUploadEv =
      evs.countP isUploadEv) ∧
    (∀ a, Event.download a ∈ (agentFinishNotify env email etype cm info cid did evs).events →
      Event.download a ∈ evs) := by
  unfold agentFinishNotify
  cases hn : agentNotifyCall env email etype cm info cid did with
  | error e =>
    simp [List.countP_append, List.countP_cons, isDownloadEv, isUploadEv, List.mem_append]
  | ok n =>
    by_cases ht : notifTruthy n = true <;>
      simp [ht, List.countP_append, List.countP_cons, isDownloadEv, isUploadEv,
        List.mem_append]

/-- Auxiliary: the Strands notify-then-mark tail issues no download or
upload calls beyond those already in `evs`. -/
theorem strandsFinishNotify_counts (senv : StrandsEnv) (email : Email)
    (etype : EmailType) (m : Str) (cid : Option Str) (pres : PositionResult)
    (did : Option Str) (evs : List Event) :
    ((strandsFinishNotify senv email etype m cid pres did evs).events.countP isDownloadEv =
      evs.countP isDownloadEv) ∧
    ((strandsFinishNotify senv email etype m cid pres did evs).events.countP isUploadEv =
      evs.countP isUploadEv) ∧
    (∀ a, Event.download a ∈ (strandsFinishNotify senv email etype m cid pres did evs).events →
      Event.download a ∈ evs) := by
  unfold strandsFinishNotify
  cases hn : strandsNotifyCall senv email etype m cid pres did with
  | error e =>
    simp [List.countP_append, List.countP_cons, isDownloadEv, isUploadEv, List.mem_append]
  | ok n =>
    dsimp only
    cases hid : n.id with
    | none =>
      simp [List.countP_append, List.countP_cons, isDownloadEv, isUploadEv, List.mem_append]
    | some nid =>
      simp [List.countP_append, List.countP_cons, isDownloadEv, isUploadEv, List.mem_append]

/-- Auxiliary: the candidate-application tool downloads and uploads at
most once, only ever for the attachment id it was handed, and downloads
exactly once when the backend returned a candidate and both attachment
arguments are truthy. -/
theorem strands_cand_app_counts (senv : StrandsEnv) (email_id email_from : Str)
    (aid afn : Option Str) :
    ((strands_process_candidate_application senv email_id email_from aid afn).events.countP
        isDownloadEv ≤ 1) ∧
    ((strands_process_candidate_application senv email_id email_from aid afn).events.countP
        isUploadEv ≤ 1) ∧
    (∀ a, Event.download a ∈
        (strands_process_candidate_application senv email_id email_from aid afn).events →
      a = aid.getD []) ∧
    (∀ c, senv.create_or_get_candidate (parse_email_address email_from)
        (extract_name_from_email email_from) = Except.ok c →
      pyTruthyOpt aid = true → pyTruthyOpt afn = true →
      (strands_process_candidate_application senv email_id email_from aid afn).events.countP
          isDownloadEv = 1) := by
  unfold strands_process_candidate_application
  cases hc : senv.create_or_get_candidate (parse_email_address email_from)
      (extract_name_from_email email_from) with
  | error e =>
    refine ⟨?_, ?_, ?_, ?_⟩ <;>
      simp [hc, List.countP_cons, isDownloadEv, isUploadEv]
  | ok cand =>
    by_cases ha : pyTruthyOpt aid = true ∧ pyTruthyOpt afn = true
    · by_cases hd : senv.download_attachment email_id (aid.getD []) (afn.getD []) = []
      · refine ⟨?_, ?_, ?_, ?_⟩ <;>
          simp [hc, ha, hd, List.countP_cons, isDownloadEv, isUploadEv]
      · cases hu : senv.upload_document cand.id
            (senv.download_attachment email_id (aid.getD []) (afn.getD []))
            (afn.getD []) with
        | error e2 =>
          refine ⟨?_, ?_, ?_, ?_⟩ <;>
            simp [hc, ha, hd, hu, List.countP_cons, isDownloadEv, isUploadEv]
        | ok up =>
          refine ⟨?_, ?_, ?_, ?_⟩ <;>
            simp [hc, ha, hd, hu, List.countP_cons, isDownloadEv, isUploadEv]
    · refine ⟨?_, ?_, ?_, ?_⟩
      · simp [hc, ha, List.countP_cons, isDownloadEv, isUploadEv]
      · simp [hc, ha, List.countP_cons, isDownloadEv, isUploadEv]
      · simp [hc, ha, List.countP_cons, isDownloadEv, isUploadEv]
      · intro c _ h1 h2
        exact absurd ⟨h1, h2⟩ ha

/-- C2: in both pipelines, a message causes at most one attachment
download and at most one document upload, every download is of the first
attachment, and a candidate application with at least one attachment
(e.g. three) causes exactly one download (in the Strands flow: once the
candidate step that precedes the download has succeeded and the first
attachment has a truthy id and filename). -/
theorem claim2_at_most_one_attachment (env : AgentEnv) (senv : StrandsEnv) (email : Email) :
    ((process_single_email env email).events.countP isDownloadEv ≤ 1 ∧
     (process_single_email env email).events.countP isUploadEv ≤ 1 ∧
     (∀ a, Event.download a ∈ (process_single_email env email).events →
       ∃ att rest, email.attachments = att :: rest ∧ a = att.id) ∧
     ((classify_email email).1 = EmailType.CANDIDATE_APPLICATION →
       ∀ att rest, email.attachments = att :: rest →
         (process_single_email env email).events.countP isDownloadEv = 1)) ∧
    ((strands_process_email senv email).events.countP isDownloadEv ≤ 1 ∧
     (strands_process_email senv email).events.countP isUploadEv ≤ 1 ∧
     (∀ a, Event.download a ∈ (strands_process_email senv email).events →
       ∃ att rest, email.attachments = att :: rest ∧ a = att.id) ∧
     ((classify_email_type email).type = EmailType.CANDIDATE_APPLICATION →
       ∀ att rest, email.attachments = att :: rest →
         ∀ c, senv.create_or_get_candidate (parse_email_address email.from_)
             (extract_name_from_email email.from_) = Except.ok c →
           att.id ≠ [] → att.filename ≠ [] →
           (strands_process_email senv email).events.countP isDownloadEv = 1)) := by
  constructor
  · by_cases hty : (classify_email email).1 = EmailType.CANDIDATE_APPLICATION
    · cases hatts : email.attachments with
      | nil =>
        have hred : process_single_email env email =
            agentFinishNotify env email (classify_email email).1
              (classify_email email).2.1 (classify_email email).2.2 none none [] := by
          simp [process_single_email, hty, hatts]
        have hc := agentFinishNotify_counts env email (classify_email email).1
          (classify_email email).2.1 (classify_email email).2.2 none none []
        rw [hred]
        refine ⟨by rw [hc.1]; simp, by rw [hc.2.1]; simp, ?_, ?_⟩
        · intro a ha
          exact absurd (hc.2.2 a ha) (by simp)
        · intro _ att rest h
          simp at h
      | cons a rest =>
        by_cases hdl : env.download_attachment email.id a.id a.filename = []
        · have hred : process_single_email env email =
              ⟨false, [Event.download a.id], email.labels⟩ := by
            simp [process_single_email, hty, hatts, hdl]
          rw [hred]
          refine ⟨by simp [List.countP_cons, isDownloadEv],
            by simp [List.countP_cons, isUploadEv], ?_, ?_⟩
          · intro x hx
            simp at hx
            exact ⟨a, rest, rfl, hx⟩
          · intro _ att r2 _
            simp [List.countP_cons, isDownloadEv]
        · cases hcand : env.create_or_get_candidate (parse_email_address email.from_)
              (extract_name_from_email email.from_) with
          | error e =>
            have hred : process_single_email env email =
                ⟨false, [Event.download a.id,
                  Event.createCandidate (parse_email_address email.from_)
                    (extract_name_from_email email.from_)], email.labels⟩ := by
              simp [process_single_email, hty, hatts, hdl, hcand]
            rw [hred]
            refine ⟨by simp [List.countP_cons, isDownloadEv],
              by simp [List.countP_cons, isUploadEv], ?_, ?_⟩
            · intro x hx
              simp at hx
              exact ⟨a, rest, rfl, hx⟩
            · intro _ att r2 _
              simp [List.countP_cons, isDownloadEv]
          | ok cand =>
            cases hup : env.upload_document cand.id
                (env.download_attachment email.id a.id a.filename) a.filename with
            | error e =>
              have hred : process_single_email env email =
                  ⟨false, [Event.download a.id,
                    Event.createCandidate (parse_email_address email.from_)
                      (extract_name_from_email email.from_),
                    Event.uploadDocument cand.id a.filename], email.labels⟩ := by
                simp [process_single_email, hty, hatts, hdl, hcand, hup]
              rw [hred]
              refine ⟨by simp [List.countP_cons, isDownloadEv, isUploadEv],
                by simp [List.countP_cons, isDownloadEv, isUploadEv], ?_, ?_⟩
              · intro x hx
                simp at hx
                exact ⟨a, rest, rfl, hx⟩
              · intro _ att r2 _
                simp [List.countP_cons, isDownloadEv]
            | ok up =>
              have hred : process_single_email env email =
                  agentFinishNotify env email (classify_email email).1
                    (classify_email email).2.1 (classify_email email).2.2
                    (some cand.id) (some up.documentId)
                    [Event.download a.id,
                     Event.createCandidate (parse_email_address email.from_)
                       (extract_name_from_email email.from_),
                     Event.uploadDocument cand.id a.filename] := by
                simp [process_single_email, hty, hatts, hdl, hcand, hup]
              have hc := agentFinishNotify_counts env email (classify_email email).1
                (classify_email email).2.1 (classify_email email).2.2
                (some cand.id) (some up.documentId)
                [Event.download a.id,
                 Event.createCandidate (parse_email_address email.from_)
                   (extract_name_from_email email.from_),
                 Event.uploadDocument cand.id a.filename]
              rw [hred]
              refine ⟨by rw [hc.1]; simp [List.countP_cons, isDownloadEv, isUploadEv],
                by rw [hc.2.1]; simp [List.countP_cons, isDownloadEv, isUploadEv], ?_, ?_⟩
              · intro x hx
                have := hc.2.2 x hx
                simp at this
                exact ⟨a, rest, rfl, this⟩
              · intro _ att r2 _
                rw [hc.1]
                simp [List.countP_cons, isDownloadEv]
    · have hred : process_single_email env email =
          agentFinishNotify env email (classify_email email).1
            (classify_email email).2.1 (classify_email email).2.2 none none [] := by
        simp [process_single_email, hty]
      have hc := agentFinishNotify_counts env email (classify_email email).1
        (classify_email email).2.1 (classify_email email).2.2 none none []
      rw [hred]
      refine ⟨by rw [hc.1]; simp, by rw [hc.2.1]; simp, ?_, ?_⟩
      · intro a ha
        exact absurd (hc.2.2 a ha) (by simp)
      · intro h
        exact absurd h hty
  · by_cases hty : (classify_email_type email).type = EmailType.CANDIDATE_APPLICATION
    · cases hatts : email.attachments with
      | nil =>
        have hred : strands_process_email senv email =
            strandsFinishNotify senv email EmailType.CANDIDATE_APPLICATION
              (classify_email_type email).method none ⟨false, none, none⟩
              (if (strands_create_draft_reply senv email.id (parse_email_address email.from_)
                    (lit "candidate_welcome_no_position")
                    [(lit "candidate_name", extract_name_from_email email.from_)]).success = true
               then (strands_create_draft_reply senv email.id (parse_email_address email.from_)
                    (lit "candidate_welcome_no_position")
                    [(lit "candidate_name", extract_name_from_email email.from_)]).draft_id
               else none) [] := by
          simp [strands_process_email, hty, hatts]
        rw [hred]
        refine ⟨?_, ?_, ?_, ?_⟩
        · rw [(strandsFinishNotify_counts _ _ _ _ _ _ _ _).1]
          simp
        · rw [(strandsFinishNotify_counts _ _ _ _ _ _ _ _).2.1]
          simp
        · intro x hx
          have := (strandsFinishNotify_counts _ _ _ _ _ _ _ _).2.2 x hx
          simp at this
        · intro _ att rest h
          simp at h
      | cons a rest =>
        by_cases hres : (strands_process_candidate_application senv email.id email.from_
            (some a.id) (some a.filename)).success = true
        · have happc := strands_cand_app_counts senv email.id email.from_
            (some a.id) (some a.filename)
          have hred : strands_process_email senv email =
              strandsFinishNotify senv email EmailType.CANDIDATE_APPLICATION
                (classify_email_type email).method
                (strands_process_candidate_application senv email.id email.from_
                  (some a.id) (some a.filename)).candidate_id
                ⟨false, none, none⟩
                (if (strands_create_draft_reply senv email.id (parse_email_address email.from_)
                      (lit "candidate_welcome_no_position")
                      [(lit "candidate_name", extract_name_from_email email.from_)]).success = true
                 then (strands_create_draft_reply senv email.id (parse_email_address email.from_)
                      (lit "candidate_welcome_no_position")
                      [(lit "candidate_name", extract_name_from_email email.from_)]).draft_id
                 else none)
                (strands_process_candidate_application senv email.id email.from_
                  (some a.id) (some a.filename)).events := by
            simp [strands_process_email, hty, hatts, hres]
          rw [hred]
          refine ⟨?_, ?_, ?_, ?_⟩
          · rw [(strandsFinishNotify_counts _ _ _ _ _ _ _ _).1]
            exact happc.1
          · rw [(strandsFinishNotify_counts _ _ _ _ _ _ _ _).2.1]
            exact happc.2.1
          · intro x hx
            have hmem := (strandsFinishNotify_counts _ _ _ _ _ _ _ _).2.2 x hx
            have := happc.2.2.1 x hmem
            simp at this
            exact ⟨a, rest, rfl, this⟩
          · intro _ att r2 hcons c hcand hid2 hfn2
            have hinj := hcons
            rw [List.cons.injEq] at hinj
            obtain ⟨h1, h2⟩ := hinj
            subst h1
            have ht1 : pyTruthyOpt (some a.id) = true := by
              cases hcase : a.id with
              | nil => exact absurd hcase hid2
              | cons x xs => rfl
            have ht2 : pyTruthyOpt (some a.filename) = true := by
              cases hcase : a.filename with
              | nil => exact absurd hcase hfn2
              | cons x xs => rfl
            rw [(strandsFinishNotify_counts _ _ _ _ _ _ _ _).1]
            exact happc.2.2.2 c hcand ht1 ht2
        · have happc := strands_cand_app_counts senv email.id email.from_
            (some a.id) (some a.filename)
          have hred : strands_process_email senv email =
              ⟨false, (strands_process_candidate_application senv email.id email.from_
                (some a.id) (some a.filename)).events, email.labels⟩ := by
            simp [strands_process_email, hty, hatts, hres]
          rw [hred]
          refine ⟨happc.1, happc.2.1, ?_, ?_⟩
          · intro x hx
            have := happc.2.2.1 x hx
            simp at this
            exact ⟨a, rest, rfl, this⟩
          · intro _ att r2 hcons c hcand hid2 hfn2
            have hinj := hcons
            rw [List.cons.injEq] at hinj
            obtain ⟨h1, h2⟩ := hinj
            subst h1
            have ht1 : pyTruthyOpt (some a.id) = true := by
              cases hcase : a.id with
              | nil => exact absurd hcase hid2
              | cons x xs => rfl
            have ht2 : pyTruthyOpt (some a.filename) = true := by
              cases hcase : a.filename with
              | nil => exact absurd hcase hfn2
              | cons x xs => rfl
            exact happc.2.2.2 c hcand ht1 ht2
    · by_cases hty2 : (classify_email_type email).type = EmailType.POSITION_ANNOUNCEMENT
      · by_cases hpos : (process_position_announcement senv email.subject email.body
            email.from_).success = true
        · have hred : strands_process_email senv email =
              strandsFinishNotify senv email EmailType.POSITION_ANNOUNCEMENT
                (classify_email_type email).method none
                (process_position_announcement senv email.subject email.body email.from_)
                (if (strands_create_draft_reply senv email.id (parse_email_address email.from_)
                      (lit "position_acknowledgment")
                      [(lit "position_title",
                        (process_position_announcement senv email.subject email.body
                          email.from_).title.getD []),
                       (lit "department", lit "Engineering"),
                       (lit "candidate_match_info", [])]).success = true
                 then (strands_create_draft_reply senv email.id (parse_email_address email.from_)
                      (lit "position_acknowledgment")
                      [(lit "position_title",
                        (process_position_announcement senv email.subject email.body
                          email.from_).title.getD []),
                       (lit "department", lit "Engineering"),
                       (lit "candidate_match_info", [])]).draft_id
                 else none) [] := by
            simp [strands_process_email, hty, hty2, hpos]
          rw [hred]
          refine ⟨?_, ?_, ?_, ?_⟩
          · rw [(strandsFinishNotify_counts _ _ _ _ _ _ _ _).1]
            simp
          · rw [(strandsFinishNotify_counts _ _ _ _ _ _ _ _).2.1]
            simp
          · intro x hx
            have := (strandsFinishNotify_counts _ _ _ _ _ _ _ _).2.2 x hx
            simp at this
          · intro h
            exact absurd h hty
        · have hred : strands_process_email senv email =
              ⟨false, [], email.labels⟩ := by
            simp [strands_process_email, hty, hty2, hpos]
          rw [hred]
          refine ⟨by simp, by simp, ?_, ?_⟩
          · intro x hx
            simp at hx
          · intro h
            exact absurd h hty
      · have hred : strands_process_email senv email =
            strandsFinishNotify senv email (classify_email_type email).type
              (classify_email_type email).method none ⟨false, none, none⟩ none [] := by
          simp [strands_process_email, hty, hty2]
        rw [hred]
        refine ⟨?_, ?_, ?_, ?_⟩
        · rw [(strandsFinishNotify_counts _ _ _ _ _ _ _ _).1]
          simp
        · rw [(strandsFinishNotify_counts _ _ _ _ _ _ _ _).2.1]
          simp
        · intro x hx
          have := (strandsFinishNotify_counts _ _ _ _ _ _ _ _).2.2 x hx
          simp at this
        · intro h
          exact absurd h hty

/-- C2 witness: the concrete three-attachment candidate email causes
exactly one download and one upload in the agent pipeline. -/
theorem claim2_witness :
    (process_single_email envAllOk testEmailCand).events.countP isDownloadEv = 1 ∧
    (process_single_email envAllOk testEmailCand).events.countP isUploadEv ≤ 1 :=
  ⟨(claim2_at_most_one_attachment envAllOk strandsEnvOk testEmailCand).1.2.2.2
      (by decide)
      { id := lit "att-1", filename := lit "cv1.pdf" }
      [{ id := lit "att-2", filename := lit "cv2.pdf" },
       { id := lit "att-3", filename := lit "cv3.pdf" }]
      (by decide),
   (claim2_at_most_one_attachment envAllOk strandsEnvOk testEmailCand).1.2.1⟩

/-- C4 counterexample: in `agent.agent_main_loop` the backend health check
runs once at startup (lines 174-183); when it fails, the function returns
before the polling loop, so with 8 iterations requested zero iterations
run and the whole run ends — the failure is not confined to one iteration
of the loop. The same environment with a passing check runs all 8. -/
theorem claim4_counterexample :
    agent_main_loop mainLoopEnvUnhealthy 8 = ⟨false, []⟩ ∧
    (agent_main_loop mainLoopEnvUnhealthy 8).iterations.length = 0 ∧
    (agent_main_loop mainLoopEnvHealthy 8).iterations.length = 8 := by
  refine ⟨rfl, rfl, ?_⟩
  simp [agent_main_loop, mainLoopEnvHealthy, mainLoopEnvUnhealthy]

/-- C4 (amended): in `run_agent_continuous` every iteration calls
`run_agent_once` with its own environment regardless of earlier failures
(a failed health check or fetch in one iteration aborts only that
iteration, which reports an error status); in `agent.agent_main_loop` a
per-iteration fetch failure likewise yields only an empty iteration while
the loop completes all iterations — but the health check there runs once
at startup, before the loop (see the counterexample). -/
theorem claim4_iteration_isolation (envs : Nat → OnceEnv) (max_iterations : Nat)
    (env : MainLoopEnv) (hinit : env.init_ok = true) (hh : env.healthy = true) :
    ((run_agent_continuous envs max_iterations).length = max_iterations) ∧
    (∀ i (h : i < (run_agent_continuous envs max_iterations).length),
      (run_agent_continuous envs max_iterations).get ⟨i, h⟩ = run_agent_once (envs i)) ∧
    (∀ i, (envs i).healthy = false →
      run_agent_once (envs i) = ⟨OnceStatus.error, 0, []⟩) ∧
    ((agent_main_loop env max_iterations).started = true) ∧
    ((agent_main_loop env max_iterations).iterations.length = max_iterations) ∧
    (∀ i (h : i < (agent_main_loop env max_iterations).iterations.length),
      (agent_main_loop env max_iterations).iterations.get ⟨i, h⟩ =
        agent_loop_iteration env i) ∧
    (∀ i, env.fetch i = Except.error () →
      agent_loop_iteration env i = ⟨0, 0, []⟩) := by
  refine ⟨?_, ?_, ?_, ?_, ?_, ?_, ?_⟩
  · simp [run_agent_continuous]
  · intro i h
    simp [run_agent_continuous]
  · intro i hf
    simp [run_agent_once, hf]
  · simp [agent_main_loop, hinit, hh]
  · simp [agent_main_loop, hinit, hh]
  · intro i h
    simp [agent_main_loop, hinit, hh]
  · intro i hf
    simp [agent_loop_iteration, hf]

/-- C4 witness: two iterations where the first is unhealthy — the run
still has both iteration outcomes, the unhealthy one reporting an error. -/
theorem claim4_witness :
    (run_agent_continuous witnessOnceEnvs 2).length = 2 ∧
    run_agent_once (witnessOnceEnvs 0) = ⟨OnceStatus.error, 0, []⟩ :=
  ⟨(claim4_iteration_isolation witnessOnceEnvs 2 mainLoopEnvHealthy rfl rfl).1,
   (claim4_iteration_isolation witnessOnceEnvs 2 mainLoopEnvHealthy rfl rfl).2.2.1 0 rfl⟩

end HellioHR
